/-
Verification of the gear-trading core (gear function, position accounting,
gear-hedger agent, agent inventory) against its design document.

The Rust source is shallowly embedded: `f64` values are modelled as exact
rationals (`ℚ`), `i64` as `ℤ`, and every mutating method becomes a pure
function from the old state to the new state (paired with the returned
value where the method returns one).  Field and function names follow the
source (`src/lib.rs`, `src/hff/agents.rs`).
-/
import Mathlib

/-- The largest finite `f64` value, `(2 - 2⁻⁵²)·2¹⁰²³`, used by the source
as the "no target" sentinel `f64::MAX`. -/
def f64MAX : ℚ := 2 ^ 1024 - 2 ^ 971

/-- `f64::signum`: `1.0` for non-negative (including `+0.0`), `-1.0` for
negative.  Exact-rational model of the Rust primitive. -/
def fsignum (q : ℚ) : ℚ := if q < 0 then -1 else 1

/-- `GearRange` (src/lib.rs): exposure gear linear between price limits. -/
structure GearRange where
  p_start : ℚ
  g_start : ℚ
  p_end : ℚ
  g_end : ℚ
deriving DecidableEq

/-- `GearRange::g` (src/lib.rs): linear interpolation between the ends. -/
def GearRange.g (r : GearRange) (x : ℚ) : ℚ :=
  r.g_start + (x - r.p_start) * (r.g_end - r.g_start) / (r.p_end - r.p_start)

/-- `Gear` (src/lib.rs): gear below and above extreme prices and a vector
of gears for specified intervals. -/
structure Gear where
  p_0 : ℚ
  g_0 : ℚ
  g_i : List GearRange
  p_n : ℚ
  g_n : ℚ
deriving DecidableEq

/-- `Gear::positive` (src/lib.rs). -/
def Gear.positive (price0 price1 : ℚ) : Gear :=
  { p_0 := price0, g_0 := 1,
    g_i := [{ p_start := price0, g_start := 1, p_end := price1, g_end := 0 }],
    p_n := price1, g_n := 0 }

/-- `Gear::negative` (src/lib.rs). -/
def Gear.negative (price0 price1 : ℚ) : Gear :=
  { p_0 := price0, g_0 := 0,
    g_i := [{ p_start := price0, g_start := 0, p_end := price1, g_end := -1 }],
    p_n := price1, g_n := -1 }

/-- `Gear::constant` (src/lib.rs). -/
def Gear.constant (dir : ℤ) : Gear :=
  { p_0 := 1, g_0 := if 0 < dir then 1 else -1,
    g_i := [],
    p_n := 1, g_n := if 0 < dir then 1 else -1 }

/-- `Gear::symmetric` (src/lib.rs). -/
def Gear.symmetric (price0 price1 : ℚ) : Gear :=
  { p_0 := price0, g_0 := 1,
    g_i := [{ p_start := price0, g_start := 1, p_end := price1, g_end := -1 }],
    p_n := price1, g_n := -1 }

/-- Modelled from the spec: `Gear::segment` is not under `src/` (only its
callers are).  Per §4.1, "segment(p0, g0, pn, gn): arbitrary line between
two endpoints with clamp regions outside". -/
def Gear.segment (p0 g0 pn gn : ℚ) : Gear :=
  { p_0 := p0, g_0 := g0,
    g_i := [{ p_start := p0, g_start := g0, p_end := pn, g_end := gn }],
    p_n := pn, g_n := gn }

/-- `Gear::g` (src/lib.rs): clamp below `p_0` and at/above `p_n`, otherwise
scan `g_i` for the first range with `p_start ≤ x < p_end` and interpolate;
`0.0` when no range matches. -/
def Gear.g (G : Gear) (x : ℚ) : ℚ :=
  if x < G.p_0 then G.g_0
  else if G.p_n ≤ x then G.g_n
  else
    match G.g_i.find? (fun r => decide (r.p_start ≤ x) && decide (x < r.p_end)) with
    | some r => r.g x
    | none => 0

/-- Modelled from the spec: `Tick` (src/hff/quote.rs is not under `src/`).
Per §3, "a quote at a point in time.  Attributes: `time` (epoch seconds),
`bid`, `ask`". -/
structure Tick where
  time : ℤ
  bid : ℚ
  ask : ℚ
deriving DecidableEq

/-- Modelled from the spec: `OrderFill` (src/hff/account.rs is not under
`src/`).  Per §3, "an executed trade.  Attributes: `price` (positive
real), `units` (signed integer; positive = bought, negative = sold)". -/
structure OrderFill where
  price : ℚ
  units : ℤ
deriving DecidableEq

/-- `AgentPL` (src/hff/agents.rs): position-accounting state. -/
structure AgentPL where
  exposure : ℤ
  price_average : ℚ
  cum_profit : ℚ
  unrealized_pl : ℚ
deriving DecidableEq

/-- `AgentPL::pl_at_price` (src/hff/agents.rs). -/
def AgentPL.pl_at_price (pl : AgentPL) (x : ℚ) : ℚ :=
  pl.cum_profit + (pl.exposure : ℚ) * (x / pl.price_average - 1)

/-- `AgentPL::increase_by` (src/hff/agents.rs). -/
def AgentPL.increase_by (pl : AgentPL) (x : ℚ) (units : ℤ) : AgentPL :=
  let de := units
  let e := pl.exposure + de
  let a := (pl.price_average * |(pl.exposure : ℚ)| + x * |(de : ℚ)|) / |(e : ℚ)|
  { exposure := e, price_average := a, cum_profit := pl.cum_profit,
    unrealized_pl := (e : ℚ) * (x / a - 1) }

/-- `AgentPL::decrease_by` (src/hff/agents.rs). -/
def AgentPL.decrease_by (pl : AgentPL) (x : ℚ) (units : ℤ) : AgentPL :=
  let de := units
  let e := pl.exposure - de
  let pi := (de : ℚ) * (x / pl.price_average - 1)
  { exposure := e, price_average := pl.price_average,
    cum_profit := pl.cum_profit + pi,
    unrealized_pl := (e : ℚ) * (x / pl.price_average - 1) }

/-- `AgentPL::buy` (src/hff/agents.rs): dispatch on the sign of the
current exposure. -/
def AgentPL.buy (pl : AgentPL) (x : ℚ) (units : ℤ) : AgentPL :=
  if 0 ≤ pl.exposure then
    pl.increase_by x units
  else if pl.exposure < 0 ∧ -pl.exposure < units then
    let delta := units + pl.exposure
    (pl.decrease_by x pl.exposure).increase_by x delta
  else if pl.exposure < 0 then
    pl.decrease_by x (-units)
  else
    pl

/-- `AgentPL::sell` (src/hff/agents.rs): dispatch on the sign of the
current exposure. -/
def AgentPL.sell (pl : AgentPL) (x : ℚ) (units : ℤ) : AgentPL :=
  if pl.exposure ≤ 0 then
    pl.increase_by x (-units)
  else if 0 < pl.exposure ∧ pl.exposure < units then
    let delta := units - pl.exposure
    (pl.decrease_by x pl.exposure).increase_by x (-delta)
  else if 0 < pl.exposure then
    pl.decrease_by x units
  else
    pl

/-- `GearHedger` (src/hff/agents.rs): the hedger agent state. -/
structure GearHedger where
  max_exposure : ℚ
  gear_f : Gear
  scaleUp : ℚ
  scaleDown : ℚ
  active : Bool
  target : ℚ
  lastTradePrice : ℚ
  nextBuyPrice : ℚ
  nextSellPrice : ℚ
  agentPL : AgentPL
  tentative_price : ℚ
  tentative_exposure : ℤ
deriving DecidableEq

/-- `GearHedger::buyer` (src/hff/agents.rs). -/
def GearHedger.buyer (price0 price1 scaleUp scaleDown max_exposure : ℚ) :
    GearHedger :=
  { max_exposure := max_exposure, gear_f := Gear.positive price0 price1,
    scaleUp := scaleUp, scaleDown := scaleDown,
    active := true, target := f64MAX,
    lastTradePrice := price1, nextBuyPrice := price1, nextSellPrice := price1,
    agentPL := { exposure := 0, price_average := 0, cum_profit := 0,
                 unrealized_pl := 0 },
    tentative_price := price1, tentative_exposure := 0 }

/-- `GearHedger::seller` (src/hff/agents.rs). -/
def GearHedger.seller (price0 price1 scaleUp scaleDown max_exposure : ℚ) :
    GearHedger :=
  { max_exposure := max_exposure, gear_f := Gear.negative price0 price1,
    scaleUp := scaleUp, scaleDown := scaleDown,
    active := true, target := f64MAX,
    lastTradePrice := price0, nextBuyPrice := price0, nextSellPrice := price0,
    agentPL := { exposure := 0, price_average := 0, cum_profit := 0,
                 unrealized_pl := 0 },
    tentative_price := price0, tentative_exposure := 0 }

/-- `GearHedger::symmetric` (src/hff/agents.rs). -/
def GearHedger.symmetric (price0 price1 scaleUp scaleDown max_exposure target : ℚ) :
    GearHedger :=
  let zero_price := (price0 + price1) / 2
  { max_exposure := max_exposure, gear_f := Gear.symmetric price0 price1,
    scaleUp := scaleUp, scaleDown := scaleDown,
    active := true, target := target,
    lastTradePrice := zero_price, nextBuyPrice := zero_price,
    nextSellPrice := zero_price,
    agentPL := { exposure := 0, price_average := 0, cum_profit := 0,
                 unrealized_pl := 0 },
    tentative_price := zero_price, tentative_exposure := 0 }

/-- `GearHedger::segment` (src/hff/agents.rs): normalize the endpoint
exposures by the larger absolute one and build a segment gear. -/
def GearHedger.segment (price0 exposure0 pricen exposuren scale target : ℚ) :
    GearHedger :=
  let gp : ℚ × ℚ :=
    if |exposuren| < |exposure0| then
      (1 * fsignum exposure0, exposuren / |exposure0|)
    else
      (exposure0 / |exposuren|, 1 * fsignum exposuren)
  let max_exposure := max |exposure0| |exposuren|
  { max_exposure := max_exposure,
    gear_f := Gear.segment price0 gp.1 pricen gp.2,
    scaleUp := scale, scaleDown := scale,
    active := true, target := target,
    lastTradePrice := price0, nextBuyPrice := price0, nextSellPrice := price0,
    agentPL := { exposure := 0, price_average := 0, cum_profit := 0,
                 unrealized_pl := 0 },
    tentative_price := price0, tentative_exposure := 0 }

/-- `GearHedger::exposure` (Agent impl, src/hff/agents.rs). -/
def GearHedger.exposure (s : GearHedger) : ℤ :=
  s.agentPL.exposure

/-- `GearHedger::deactivate` (Agent impl, src/hff/agents.rs). -/
def GearHedger.deactivate (s : GearHedger) : GearHedger :=
  { s with active := false }

/-- `GearHedger::to_be_closed` (Agent impl, src/hff/agents.rs). -/
def GearHedger.to_be_closed (s : GearHedger) : Prop :=
  s.target < s.agentPL.cum_profit

instance (s : GearHedger) : Decidable s.to_be_closed := by
  unfold GearHedger.to_be_closed; infer_instance

/-- `GearHedger::close` (Agent impl, src/hff/agents.rs). -/
def GearHedger.close (s : GearHedger) (tick : Tick) : GearHedger × ℤ :=
  (if 0 < s.agentPL.exposure then
    { s with tentative_price := tick.bid, tentative_exposure := 0 }
  else
    { s with tentative_price := tick.ask, tentative_exposure := 0 }, 0)

/-- `GearHedger::target_action` (Agent impl, src/hff/agents.rs): zero the
tentative exposure and deactivate. -/
def GearHedger.target_action (s : GearHedger) : GearHedger × ℤ :=
  (GearHedger.deactivate { s with tentative_exposure := 0 }, 0)

/-- Truncation toward zero of an `f64` cast to `i64` (`as i64` in Rust),
modelled on exact rationals: T-division of the numerator by the
denominator. -/
def ratToI64 (q : ℚ) : ℤ :=
  Int.tdiv q.num q.den

/-- `GearHedger::target_exposure` (Agent impl, src/hff/agents.rs): trade
when the bid reached `nextSellPrice` or the ask reached `nextBuyPrice`. -/
def GearHedger.target_exposure (s : GearHedger) (tick : Tick) : GearHedger × ℤ :=
  if s.nextSellPrice ≤ tick.bid then
    let e := ratToI64 (s.gear_f.g tick.bid * s.max_exposure)
    ({ s with tentative_price := tick.bid, tentative_exposure := e }, e)
  else if tick.ask ≤ s.nextBuyPrice then
    let e := ratToI64 (s.gear_f.g tick.ask * s.max_exposure)
    ({ s with tentative_price := tick.ask, tentative_exposure := e }, e)
  else
    (s, s.agentPL.exposure)

/-- `GearHedger::next_exposure` (Agent impl, src/hff/agents.rs): the
profit-take branch, else `target_exposure`. -/
def GearHedger.next_exposure (s : GearHedger) (tick : Tick) : GearHedger × ℤ :=
  let close_price := if 0 < s.exposure then tick.bid else tick.ask
  if s.target < s.agentPL.pl_at_price close_price then
    GearHedger.target_action
      { s with tentative_price := close_price, tentative_exposure := 0 }
  else
    s.target_exposure tick

/-- `GearHedger::update_on_fill` (Agent impl, src/hff/agents.rs): account
the traded difference, rearm the trip-wires, deactivate past target. -/
def GearHedger.update_on_fill (s : GearHedger) (order_fill : OrderFill) :
    GearHedger :=
  let traded := s.tentative_exposure - s.agentPL.exposure
  let s1 :=
    if traded < 0 then
      { s with agentPL := s.agentPL.sell order_fill.price |traded|,
               lastTradePrice := order_fill.price,
               nextSellPrice := order_fill.price + s.scaleUp,
               nextBuyPrice := order_fill.price - s.scaleDown }
    else if 0 < traded then
      { s with agentPL := s.agentPL.buy order_fill.price |traded|,
               lastTradePrice := order_fill.price,
               nextBuyPrice := order_fill.price - s.scaleDown,
               nextSellPrice := order_fill.price + s.scaleUp }
    else s
  if s1.to_be_closed then s1.deactivate else s1

/-- `GearHedger::next_exposure_and_fill` (Agent impl, src/hff/agents.rs):
stage the fill price, add the fill units to the tentative exposure, then
apply `update_on_fill`. -/
def GearHedger.next_exposure_and_fill (s : GearHedger) (order_fill : OrderFill) :
    GearHedger :=
  GearHedger.update_on_fill
    { s with tentative_price := order_fill.price,
             tentative_exposure := s.tentative_exposure + order_fill.units }
    order_fill

/-- `GearHedger::merge_flat` (src/hff/agents.rs).  The source builds the
merged agent through `GAgent::Segment { .. }.build().unwrap()`, whose
`Segment` arm delegates verbatim to `GearHedger::segment`; the locally
computed normalized gear and the `Gear::segment` value bound to `gear`
are dead in the source and are omitted here. -/
def GearHedger.merge_flat (s other : GearHedger) : GearHedger :=
  let p_0 := min s.gear_f.p_0 other.gear_f.p_0
  let p_n := max s.gear_f.p_n other.gear_f.p_n
  let low_gear := s.gear_f.g_0 * s.max_exposure + other.gear_f.g_0 * other.max_exposure
  let high_gear := s.gear_f.g_n * s.max_exposure + other.gear_f.g_n * other.max_exposure
  let scaleUp := (s.scaleUp + other.scaleUp) / 2
  let scaleDown := (s.scaleDown + other.scaleDown) / 2
  let scale := (scaleUp + scaleDown) / 2
  let target := s.target + other.target - s.agentPL.cum_profit - other.agentPL.cum_profit
  let agent := GearHedger.segment p_0 low_gear p_n high_gear scale target
  let agent := agent.next_exposure_and_fill
    { price := s.agentPL.price_average, units := s.agentPL.exposure }
  let agent := agent.next_exposure_and_fill
    { price := other.agentPL.price_average, units := other.agentPL.exposure }
  { agent with active := true }

/-- `AgentInventory` (src/hff/agents.rs), instantiated at `GearHedger`;
the `HashMap` is modelled as an association list. -/
structure AgentInventory where
  agents : List (String × GearHedger)
  pl : ℚ
deriving DecidableEq

/-- `AgentInventory::close` (Agent impl, src/hff/agents.rs): broadcast to
every member (no activity filter in the source). -/
def AgentInventory.close (inv : AgentInventory) (tick : Tick) :
    AgentInventory × ℤ :=
  ({ inv with agents := inv.agents.map fun kv => (kv.1, (kv.2.close tick).1) }, 0)

/-- `AgentInventory::deactivate` (Agent impl, src/hff/agents.rs). -/
def AgentInventory.deactivate (inv : AgentInventory) : AgentInventory :=
  { inv with agents := inv.agents.map fun kv => (kv.1, kv.2.deactivate) }

/-- `AgentInventory::target_action` (Agent impl, src/hff/agents.rs): does
nothing and returns `0`. -/
def AgentInventory.target_action (inv : AgentInventory) : AgentInventory × ℤ :=
  (inv, 0)

/-- `AgentInventory::target_exposure` (Agent impl, src/hff/agents.rs):
does nothing and returns `0`. -/
def AgentInventory.target_exposure (inv : AgentInventory) (tick : Tick) :
    AgentInventory × ℤ :=
  (inv, 0)

/-- `AgentInventory::next_exposure` (Agent impl, src/hff/agents.rs): run
`next_exposure` on each active member (mutating it) and sum the results. -/
def AgentInventory.next_exposure (inv : AgentInventory) (tick : Tick) :
    AgentInventory × ℤ :=
  let step := fun (acc : List (String × GearHedger) × ℤ) (kv : String × GearHedger) =>
    if kv.2.active then
      let r := kv.2.next_exposure tick
      (acc.1 ++ [(kv.1, r.1)], acc.2 + r.2)
    else
      (acc.1 ++ [kv], acc.2)
  let r := inv.agents.foldl step ([], 0)
  ({ inv with agents := r.1 }, r.2)

/-- `AgentInventory::update_on_fill` (Agent impl, src/hff/agents.rs):
broadcast the fill to every active member. -/
def AgentInventory.update_on_fill (inv : AgentInventory) (order_fill : OrderFill) :
    AgentInventory :=
  { inv with agents := inv.agents.map fun kv =>
      if kv.2.active then (kv.1, kv.2.update_on_fill order_fill) else kv }

/-- `AgentInventory::next_exposure_and_fill` (Agent impl,
src/hff/agents.rs): `next_exposure` on a synthetic tick at the fill price,
then broadcast the fill. -/
def AgentInventory.next_exposure_and_fill (inv : AgentInventory)
    (order_fill : OrderFill) : AgentInventory :=
  ((inv.next_exposure
      { time := 0, bid := order_fill.price, ask := order_fill.price }).1).update_on_fill
    order_fill

/-- One call of the `Agent` trait on an `AgentInventory`, as data: the
seven operations of the trait implementation. -/
inductive InvOp where
  | closeOp (tick : Tick)
  | deactivateOp
  | nextExposureOp (tick : Tick)
  | targetExposureOp (tick : Tick)
  | targetActionOp
  | updateOnFillOp (order_fill : OrderFill)
  | nextExposureAndFillOp (order_fill : OrderFill)

/-- Run one `Agent`-trait call on an inventory, keeping the new state. -/
def applyInvOp (inv : AgentInventory) : InvOp → AgentInventory
  | .closeOp tick => (inv.close tick).1
  | .deactivateOp => inv.deactivate
  | .nextExposureOp tick => (inv.next_exposure tick).1
  | .targetExposureOp tick => (inv.target_exposure tick).1
  | .targetActionOp => (inv.target_action).1
  | .updateOnFillOp f => inv.update_on_fill f
  | .nextExposureAndFillOp f => inv.next_exposure_and_fill f

/-- The ranges of a gear, read left to right, tile the price axis from
`a` up to `b` contiguously and without overlap, each range non-empty.
This is the "ranges cover `[p_0, p_n)` contiguously and without overlap"
invariant of the design document. -/
def chainFrom : ℚ → List GearRange → ℚ → Prop
  | a, [], b => a = b
  | a, r :: rs, b => r.p_start = a ∧ a < r.p_end ∧ chainFrom r.p_end rs b

/-- Concrete state for the C3 witness: a buyer holding 10 units bought at
average 1 with a profit target of 0. -/
def sC3 : GearHedger :=
  { GearHedger.buyer 1 2 (1/100) (1/100) 1000 with
      agentPL := { exposure := 10, price_average := 1, cum_profit := 0,
                   unrealized_pl := 0 },
      target := 0 }

/-- Concrete state for the C2 counterexample: a buyer holding 10 units at
average price 1 whose profit target is already 0, with trip-wires at 1
and 2. -/
def sC2 : GearHedger :=
  { GearHedger.buyer 1 2 (1/100) (1/100) 1000 with
      agentPL := { exposure := 10, price_average := 1, cum_profit := 0,
                   unrealized_pl := 0 },
      target := 0, nextBuyPrice := 1, nextSellPrice := 2 }

/-- The concrete buyer of C7: `buyer(1.00, 2.00, 0.01, 0.01, 1000)`. -/
def buyerC7 : GearHedger := GearHedger.buyer 1 2 (1/100) (1/100) 1000

/-- The first tick of C7: `(bid 1.50, ask 1.51)`. -/
def tickC7 : Tick := { time := 0, bid := 3/2, ask := 151/100 }

/-- The staged state and returned exposure of C7's first `next_exposure`. -/
def stepC7 : GearHedger × ℤ := buyerC7.next_exposure tickC7

/-- The post-fill state of C7: the fill is applied at the tentative price
and units, as in the source's own test harness. -/
def filledC7 : GearHedger :=
  stepC7.1.update_on_fill
    { price := stepC7.1.tentative_price, units := stepC7.1.tentative_exposure }

theorem chainFrom_le {a b : ℚ} : ∀ {l : List GearRange}, chainFrom a l b → a ≤ b
  | [], h => le_of_eq h
  | r :: rs, h => le_trans (le_of_lt h.2.1) (chainFrom_le h.2.2)

theorem chainFrom_mem {a b : ℚ} :
    ∀ {l : List GearRange}, chainFrom a l b → ∀ {r : GearRange}, r ∈ l →
      a ≤ r.p_start ∧ r.p_end ≤ b
  | [], _, r, hr => absurd hr (List.not_mem_nil r)
  | r0 :: rs, h, r, hr => by
    rcases List.mem_cons.mp hr with hEq | hTail
    · subst hEq
      exact ⟨le_of_eq h.1.symm, chainFrom_le h.2.2⟩
    · have hmem := chainFrom_mem h.2.2 hTail
      exact ⟨le_trans (le_of_lt (h.1 ▸ h.2.1)) hmem.1, hmem.2⟩

/-- Under contiguous coverage, `find?` locates exactly the range that
contains `x`. -/
theorem find?_chain {x a b : ℚ} :
    ∀ {l : List GearRange}, chainFrom a l b → ∀ {r : GearRange}, r ∈ l →
      r.p_start ≤ x → x < r.p_end →
      l.find? (fun rr => decide (rr.p_start ≤ x) && decide (x < rr.p_end)) = some r
  | [], _, r, hr, _, _ => absurd hr (List.not_mem_nil r)
  | r0 :: rs, h, r, hr, h1, h2 => by
    rcases List.mem_cons.mp hr with hEq | hTail
    · subst hEq
      exact List.find?_cons_of_pos _ (by simp [h1, h2])
    · have hbound := chainFrom_mem h.2.2 hTail
      have hend : r0.p_end ≤ x := le_trans hbound.1 h1
      rw [List.find?_cons_of_neg _ (by simp [not_lt.mpr hend])]
      exact find?_chain h.2.2 hTail h1 h2

/-- C4: for every `Gear` whose ranges cover `[p_0, p_n)` contiguously and
without overlap, `g(x)` equals `g_0` when `x < p_0`, equals `g_n` when
`x ≥ p_n`, and otherwise equals the linear interpolation of the unique
covering half-open range (ties at interior boundaries resolving to the
upper range). -/
theorem gear_g_piecewise (G : Gear) (hcov : chainFrom G.p_0 G.g_i G.p_n)
    (x : ℚ) :
    (x < G.p_0 → G.g x = G.g_0) ∧
    (G.p_n ≤ x → G.g x = G.g_n) ∧
    (∀ r ∈ G.g_i, r.p_start ≤ x → x < r.p_end →
      G.g x = r.g_start + (x - r.p_start) * (r.g_end - r.g_start) /
        (r.p_end - r.p_start)) := by
  refine ⟨fun h0 => ?_, fun hn => ?_, fun r hr h1 h2 => ?_⟩
  · unfold Gear.g
    rw [if_pos h0]
  · have hp : G.p_0 ≤ G.p_n := chainFrom_le hcov
    unfold Gear.g
    rw [if_neg (not_lt.mpr (le_trans hp hn)), if_pos hn]
  · have hbound := chainFrom_mem hcov hr
    unfold Gear.g
    rw [if_neg (not_lt.mpr (le_trans hbound.1 h1)),
      if_neg (not_le.mpr (lt_of_lt_of_le h2 hbound.2)),
      find?_chain hcov hr h1 h2]
    exact rfl

/-- Witness for C4 on `Gear::symmetric(1, 2)` at `x = 3/2`: the covering
range is the single interior range and the interpolated value is `0`. -/
theorem gear_g_piecewise_witness :
    (Gear.symmetric 1 2).g (3/2) =
      1 + ((3:ℚ)/2 - 1) * (-1 - 1) / (2 - 1) :=
  (gear_g_piecewise (Gear.symmetric 1 2)
      (by norm_num [Gear.symmetric, chainFrom]) (3/2)).2.2
    { p_start := 1, g_start := 1, p_end := 2, g_end := -1 }
    (by norm_num [Gear.symmetric]) (by norm_num) (by norm_num)

/-- C9: `Gear::g` is total on the interior even when the coverage
invariant is broken: if `p_0 ≤ x < p_n` and no range of `g_i` satisfies
`p_start ≤ x < p_end`, the evaluation returns `0` rather than failing. -/
theorem gear_g_gap (G : Gear) (x : ℚ) (h0 : G.p_0 ≤ x) (hn : x < G.p_n)
    (hgap : ∀ r ∈ G.g_i, ¬(r.p_start ≤ x ∧ x < r.p_end)) :
    G.g x = 0 := by
  unfold Gear.g
  rw [if_neg (not_lt.mpr h0), if_neg (not_le.mpr hn)]
  have hnone :
      G.g_i.find? (fun rr => decide (rr.p_start ≤ x) && decide (x < rr.p_end))
        = none := by
    rw [List.find?_eq_none]
    intro r hr
    have := hgap r hr
    simp only [Bool.and_eq_true, decide_eq_true_eq]
    tauto
  rw [hnone]

/-- Witness for C9: a gear with a real gap — ranges cover only `[0, 1)`
out of `[0, 2)` — still evaluates to `0` at `x = 3/2`. -/
theorem gear_g_gap_witness :
    (Gear.mk 0 1 [{ p_start := 0, g_start := 1, p_end := 1, g_end := 0 }] 2 0).g
      (3/2) = 0 :=
  gear_g_gap _ (3/2) (by norm_num) (by norm_num) (by norm_num)

/-- C3: with `close_price` the bid when the exposure is positive and the
ask otherwise, whenever `pl_at_price(close_price) > target`,
`next_exposure` stages `(close_price, 0)`, deactivates the agent, and
returns `0`. -/
theorem next_exposure_profit_take (s : GearHedger) (tick : Tick)
    (h : s.target <
      s.agentPL.pl_at_price (if 0 < s.exposure then tick.bid else tick.ask)) :
    (s.next_exposure tick).2 = 0 ∧
    (s.next_exposure tick).1.tentative_price =
      (if 0 < s.exposure then tick.bid else tick.ask) ∧
    (s.next_exposure tick).1.tentative_exposure = 0 ∧
    (s.next_exposure tick).1.active = false := by
  simp only [GearHedger.next_exposure, GearHedger.target_action,
    GearHedger.deactivate]
  rw [if_pos h]
  exact ⟨rfl, rfl, rfl, rfl⟩

/-- Witness for C3 at the tick `(bid 3/2, ask 8/5)`: the profit-take
branch fires and flattens/deactivates the agent. -/
theorem next_exposure_profit_take_witness :
    ((sC3.next_exposure { time := 0, bid := 3/2, ask := 8/5 }).2 = 0 ∧
      (sC3.next_exposure { time := 0, bid := 3/2, ask := 8/5 }).1.tentative_price =
        (if 0 < sC3.exposure then (3:ℚ)/2 else 8/5) ∧
      (sC3.next_exposure { time := 0, bid := 3/2, ask := 8/5 }).1.tentative_exposure = 0 ∧
      (sC3.next_exposure { time := 0, bid := 3/2, ask := 8/5 }).1.active = false) :=
  next_exposure_profit_take sC3 { time := 0, bid := 3/2, ask := 8/5 }
    (by norm_num [sC3, GearHedger.buyer, GearHedger.exposure,
      AgentPL.pl_at_price])

/-- C6: for same-direction `units` with `|units| ≤ |exposure|`,
`decrease_by(x, units)` subtracts `units` from the exposure, accrues
`units · (x / price_average − 1)` into the realized profit, and preserves
`price_average`. -/
theorem decrease_by_partial_close (pl : AgentPL) (x : ℚ) (units : ℤ)
    (he : pl.exposure ≠ 0) (hpa : pl.price_average ≠ 0)
    (hsign : units.sign = pl.exposure.sign) (hu : units ≠ 0)
    (habs : units.natAbs ≤ pl.exposure.natAbs) :
    (pl.decrease_by x units).exposure = pl.exposure - units ∧
    (pl.decrease_by x units).cum_profit =
      pl.cum_profit + (units : ℚ) * (x / pl.price_average - 1) ∧
    (pl.decrease_by x units).price_average = pl.price_average :=
  ⟨rfl, rfl, rfl⟩

/-- Witness for C6: closing 2 of 5 long units bought at average 2,
selling at 3. -/
theorem decrease_by_partial_close_witness :
    ((AgentPL.mk 5 2 1 0).decrease_by 3 2).exposure = 5 - 2 ∧
    ((AgentPL.mk 5 2 1 0).decrease_by 3 2).cum_profit =
      1 + ((2:ℤ) : ℚ) * (3 / 2 - 1) ∧
    ((AgentPL.mk 5 2 1 0).decrease_by 3 2).price_average = 2 :=
  decrease_by_partial_close (AgentPL.mk 5 2 1 0) 3 2 (by norm_num)
    (by norm_num) (by rfl) (by norm_num) (by norm_num)

theorem update_on_fill_gear_f (s : GearHedger) (f : OrderFill) :
    (s.update_on_fill f).gear_f = s.gear_f := by
  simp only [GearHedger.update_on_fill, GearHedger.deactivate]
  split_ifs <;> rfl

theorem update_on_fill_target (s : GearHedger) (f : OrderFill) :
    (s.update_on_fill f).target = s.target := by
  simp only [GearHedger.update_on_fill, GearHedger.deactivate]
  split_ifs <;> rfl

theorem next_exposure_and_fill_gear_f (s : GearHedger) (f : OrderFill) :
    (s.next_exposure_and_fill f).gear_f = s.gear_f := by
  simp only [GearHedger.next_exposure_and_fill]
  rw [update_on_fill_gear_f]

theorem next_exposure_and_fill_target (s : GearHedger) (f : OrderFill) :
    (s.next_exposure_and_fill f).target = s.target := by
  simp only [GearHedger.next_exposure_and_fill]
  rw [update_on_fill_target]

/-- C8: `merge_flat` yields an agent whose gear spans the union price
range `[min(p_0), max(p_n)]` and whose `target` is
`self.target + other.target − self.realized − other.realized`. -/
theorem merge_flat_range_target (a b : GearHedger) :
    (a.merge_flat b).gear_f.p_0 = min a.gear_f.p_0 b.gear_f.p_0 ∧
    (a.merge_flat b).gear_f.p_n = max a.gear_f.p_n b.gear_f.p_n ∧
    (a.merge_flat b).target =
      a.target + b.target - a.agentPL.cum_profit - b.agentPL.cum_profit := by
  unfold GearHedger.merge_flat
  refine ⟨?_, ?_, ?_⟩ <;>
    simp [next_exposure_and_fill_gear_f, next_exposure_and_fill_target,
      GearHedger.segment, Gear.segment]

theorem applyInvOp_pl (inv : AgentInventory) (op : InvOp) :
    (applyInvOp inv op).pl = inv.pl := by
  cases op <;>
    simp [applyInvOp, AgentInventory.close, AgentInventory.deactivate,
      AgentInventory.next_exposure, AgentInventory.target_exposure,
      AgentInventory.target_action, AgentInventory.update_on_fill,
      AgentInventory.next_exposure_and_fill]

/-- C10: the `pl` field of an `AgentInventory` is a frame of every
`Agent`-trait operation: any sequence of `close`, `deactivate`,
`next_exposure`, `target_exposure`, `target_action`, `update_on_fill` and
`next_exposure_and_fill` calls leaves it at its initial value. -/
theorem inventory_pl_frame (inv : AgentInventory) (ops : List InvOp) :
    (ops.foldl applyInvOp inv).pl = inv.pl := by
  induction ops generalizing inv with
  | nil => rfl
  | cons op rest ih =>
    rw [List.foldl_cons, ih, applyInvOp_pl]

/-- Counterexample to C1 as stated: a fresh `buyer(1, 2, 1/100, 1/100,
1000)` has `tentative_exposure = exposure = 0`, so a fill at price `3/2`
trades nothing and `update_on_fill` leaves `lastTradePrice` at `2`,
not at the fill price as the claim requires. -/
theorem update_on_fill_no_trade_cex :
    ((GearHedger.buyer 1 2 (1/100) (1/100) 1000).update_on_fill
        { price := 3/2, units := 0 }).lastTradePrice ≠ 3/2 := by
  norm_num [GearHedger.buyer, GearHedger.update_on_fill,
    GearHedger.to_be_closed, GearHedger.deactivate, f64MAX]

/-- C1 (amended): after `update_on_fill(fill)` with a non-zero traded
quantity (`tentative_exposure ≠ exposure`), the post-state satisfies
`nextSellPrice = fill.price + scaleUp`, `nextBuyPrice = fill.price −
scaleDown` and `lastTradePrice = fill.price`; a zero traded quantity
leaves all three unchanged. -/
theorem update_on_fill_rearms (s : GearHedger) (f : OrderFill)
    (h : s.tentative_exposure ≠ s.agentPL.exposure) :
    (s.update_on_fill f).nextSellPrice = f.price + s.scaleUp ∧
    (s.update_on_fill f).nextBuyPrice = f.price - s.scaleDown ∧
    (s.update_on_fill f).lastTradePrice = f.price := by
  simp only [GearHedger.update_on_fill, GearHedger.deactivate]
  split_ifs with h1 h2 h3 h4 h5 <;>
    first
      | exact ⟨rfl, rfl, rfl⟩
      | (exact absurd (by omega : s.tentative_exposure = s.agentPL.exposure) h)

/-- Witness for C1 (amended): a buyer whose staged exposure is `5` against
a held exposure of `0`, filled at price `3/2`. -/
theorem update_on_fill_rearms_witness :
    (({ GearHedger.buyer 1 2 (1/100) (1/100) 1000 with tentative_exposure := 5
        }.update_on_fill { price := 3/2, units := 5 }).nextSellPrice =
      (3:ℚ)/2 + (1/100) ∧
    ({ GearHedger.buyer 1 2 (1/100) (1/100) 1000 with tentative_exposure := 5
        }.update_on_fill { price := 3/2, units := 5 }).nextBuyPrice =
      (3:ℚ)/2 - (1/100) ∧
    ({ GearHedger.buyer 1 2 (1/100) (1/100) 1000 with tentative_exposure := 5
        }.update_on_fill { price := 3/2, units := 5 }).lastTradePrice =
      (3:ℚ)/2) :=
  update_on_fill_rearms _ _ (by norm_num [GearHedger.buyer])

/-- Counterexample to C2 as stated: the tick `(bid 3/2, ask 8/5)` lies
strictly inside `(nextBuyPrice, nextSellPrice) = (1, 2)` on both sides,
yet `next_exposure` returns `0 ≠ exposure() = 10` and overwrites
`tentative_price`, because the profit-take branch fires first. -/
theorem next_exposure_frame_cex :
    sC2.nextBuyPrice < (3:ℚ)/2 ∧ (3:ℚ)/2 < sC2.nextSellPrice ∧
    sC2.nextBuyPrice < (8:ℚ)/5 ∧ (8:ℚ)/5 < sC2.nextSellPrice ∧
    (sC2.next_exposure { time := 0, bid := 3/2, ask := 8/5 }).2 ≠
      sC2.exposure ∧
    (sC2.next_exposure { time := 0, bid := 3/2, ask := 8/5 }).1.tentative_price ≠
      sC2.tentative_price := by
  refine ⟨by norm_num [sC2, GearHedger.buyer], by norm_num [sC2, GearHedger.buyer],
    by norm_num [sC2, GearHedger.buyer], by norm_num [sC2, GearHedger.buyer], ?_, ?_⟩ <;>
    norm_num [sC2, GearHedger.buyer, GearHedger.next_exposure,
      GearHedger.exposure, GearHedger.target_action, GearHedger.deactivate,
      AgentPL.pl_at_price]

/-- C2 (amended): for any tick whose bid and ask both lie strictly inside
`(nextBuyPrice, nextSellPrice)`, and provided the profit-take branch does
not fire (`pl_at_price(close_price) ≤ target`), `next_exposure` returns
the current exposure and leaves the whole state — in particular
`tentative_price` and `tentative_exposure` — unchanged. -/
theorem next_exposure_frame (s : GearHedger) (tick : Tick)
    (hb1 : s.nextBuyPrice < tick.bid) (hb2 : tick.bid < s.nextSellPrice)
    (ha1 : s.nextBuyPrice < tick.ask) (ha2 : tick.ask < s.nextSellPrice)
    (hpl : s.agentPL.pl_at_price
        (if 0 < s.exposure then tick.bid else tick.ask) ≤ s.target) :
    (s.next_exposure tick).2 = s.exposure ∧
    (s.next_exposure tick).1.tentative_price = s.tentative_price ∧
    (s.next_exposure tick).1.tentative_exposure = s.tentative_exposure := by
  simp only [GearHedger.next_exposure, GearHedger.target_exposure]
  rw [if_neg (not_lt.mpr hpl), if_neg (not_le.mpr hb2),
    if_neg (not_le.mpr ha1)]
  exact ⟨rfl, rfl, rfl⟩

/-- Witness for C2 (amended): a flat `buyer(1, 2, 1/100, 1/100, 1000)`
whose trip-wires sit at 1 and 2, fed the tick `(bid 3/2, ask 8/5)` that
lies strictly inside the band on both sides. -/
theorem next_exposure_frame_witness :
    (({ GearHedger.buyer 1 2 (1/100) (1/100) 1000 with
          nextBuyPrice := 1, nextSellPrice := 2
        }.next_exposure { time := 0, bid := 3/2, ask := 8/5 }).2 =
      { GearHedger.buyer 1 2 (1/100) (1/100) 1000 with
          nextBuyPrice := 1, nextSellPrice := 2 }.exposure ∧
    ({ GearHedger.buyer 1 2 (1/100) (1/100) 1000 with
          nextBuyPrice := 1, nextSellPrice := 2
        }.next_exposure { time := 0, bid := 3/2, ask := 8/5 }).1.tentative_price =
      { GearHedger.buyer 1 2 (1/100) (1/100) 1000 with
          nextBuyPrice := 1, nextSellPrice := 2 }.tentative_price ∧
    ({ GearHedger.buyer 1 2 (1/100) (1/100) 1000 with
          nextBuyPrice := 1, nextSellPrice := 2
        }.next_exposure { time := 0, bid := 3/2, ask := 8/5 }).1.tentative_exposure =
      { GearHedger.buyer 1 2 (1/100) (1/100) 1000 with
          nextBuyPrice := 1, nextSellPrice := 2 }.tentative_exposure) :=
  next_exposure_frame _ _ (by norm_num [GearHedger.buyer])
    (by norm_num [GearHedger.buyer]) (by norm_num [GearHedger.buyer])
    (by norm_num [GearHedger.buyer])
    (by norm_num [GearHedger.buyer, GearHedger.exposure, AgentPL.pl_at_price,
      f64MAX])

/-- C5: a `buy` larger than the opposite (short) side first realizes the
whole short at `x` — accruing `exposure · (x / price_average − 1)` into
`cum_profit` — and opens the remainder `units + exposure` long, leaving
`exposure = old + units` and `price_average = x`; symmetrically, a `sell`
larger than the long side leaves `exposure = old − units` and
`price_average = x` with the same realized accrual. -/
theorem buy_sell_cross_side (pl : AgentPL) (x : ℚ) (units : ℤ) (hx : 0 < x) :
    (pl.exposure < 0 → -pl.exposure < units →
      (pl.buy x units).exposure = pl.exposure + units ∧
      (pl.buy x units).price_average = x ∧
      (pl.buy x units).cum_profit =
        pl.cum_profit + (pl.exposure : ℚ) * (x / pl.price_average - 1)) ∧
    (0 < pl.exposure → pl.exposure < units →
      (pl.sell x units).exposure = pl.exposure - units ∧
      (pl.sell x units).price_average = x ∧
      (pl.sell x units).cum_profit =
        pl.cum_profit + (pl.exposure : ℚ) * (x / pl.price_average - 1)) := by
  constructor
  · intro he hu
    have hd : (0:ℤ) < units + pl.exposure := by omega
    have hdq : (0:ℚ) < ((units + pl.exposure : ℤ) : ℚ) := by exact_mod_cast hd
    unfold AgentPL.buy
    rw [if_neg (not_le.mpr he),
      if_pos (show pl.exposure < 0 ∧ -pl.exposure < units from ⟨he, hu⟩)]
    simp only [AgentPL.decrease_by, AgentPL.increase_by]
    refine ⟨by omega, ?_, by trivial⟩
    simp only [sub_self, Int.cast_zero, abs_zero, mul_zero, zero_add]
    rw [abs_of_pos hdq, mul_div_assoc, div_self (ne_of_gt hdq), mul_one]
  · intro he hu
    have hd : (0:ℤ) < units - pl.exposure := by omega
    have hdq : (0:ℚ) < ((units - pl.exposure : ℤ) : ℚ) := by exact_mod_cast hd
    unfold AgentPL.sell
    rw [if_neg (not_le.mpr he),
      if_pos (show 0 < pl.exposure ∧ pl.exposure < units from ⟨he, hu⟩)]
    simp only [AgentPL.decrease_by, AgentPL.increase_by]
    refine ⟨by omega, ?_, by trivial⟩
    simp only [sub_self, Int.cast_zero, Int.cast_neg, abs_zero, abs_neg,
      mul_zero, zero_add]
    rw [abs_of_pos hdq, mul_div_assoc, div_self (ne_of_gt hdq), mul_one]

/-- Witness for C5: a short of 3 units at average 2, buying 5 at price 3:
the short is fully realized and 2 long units open at average 3. -/
theorem buy_sell_cross_side_witness :
    ((AgentPL.mk (-3) 2 0 0).buy 3 5).exposure = -3 + 5 ∧
    ((AgentPL.mk (-3) 2 0 0).buy 3 5).price_average = 3 ∧
    ((AgentPL.mk (-3) 2 0 0).buy 3 5).cum_profit =
      0 + ((-3 : ℤ) : ℚ) * (3 / 2 - 1) :=
  (buy_sell_cross_side (AgentPL.mk (-3) 2 0 0) 3 5 (by norm_num)).1
    (by norm_num) (by norm_num)

/-- Counterexample to C7 as stated: on the first tick `(bid 1.50,
ask 1.51)` the buyer trades at the ask, where the positive gear is
`0.49`, so `next_exposure` returns `⌊0.49·1000⌋ = 490`, not the claimed
`⌊0.5·1000⌋ = 500`. -/
theorem buyer_first_tick_cex : stepC7.2 ≠ 500 := by
  norm_num [stepC7, buyerC7, tickC7, GearHedger.next_exposure,
    GearHedger.target_exposure, GearHedger.exposure, GearHedger.buyer,
    AgentPL.pl_at_price, Gear.g, Gear.positive, GearRange.g, List.find?,
    ratToI64, f64MAX]

/-- C7 (amended): for `buyer(1.00, 2.00, 0.01, 0.01, 1000)` on the first
tick `(bid 1.50, ask 1.51)`, `next_exposure` stages `490 = ⌊0.49·1000⌋`
units at the ask `1.51` (in exact arithmetic) and returns `490`; after
the fill at the tentative price and units, `exposure() = 490`,
`next_buy_price = 1.50` and `next_sell_price = 1.52`. -/
theorem buyer_first_tick : stepC7.2 = 490 ∧
    stepC7.1.tentative_exposure = 490 ∧
    stepC7.1.tentative_price = 151/100 ∧
    filledC7.agentPL.exposure = 490 ∧
    filledC7.nextBuyPrice = 3/2 ∧
    filledC7.nextSellPrice = 38/25 := by
  norm_num [filledC7, stepC7, buyerC7, tickC7, GearHedger.next_exposure,
    GearHedger.target_exposure, GearHedger.exposure, GearHedger.buyer,
    GearHedger.update_on_fill, GearHedger.to_be_closed, GearHedger.deactivate,
    AgentPL.pl_at_price, AgentPL.buy, AgentPL.increase_by,
    Gear.g, Gear.positive, GearRange.g, List.find?, ratToI64, f64MAX]
